import Mathlib

/-!
Verification of the song-list application (app script and service worker).

JavaScript strings are modelled as `List Char` (`Str`).  The app script's
pure logic — search normalization, filtering, sorting, pagination,
favorites, persistence, the display-spacing transform — is embedded as
executable Lean functions; the service worker's install/activate/fetch
logic is embedded as functions over an explicit cache-store state.
-/

namespace SongBook

/-- JavaScript strings as character lists. -/
abbrev Str := List Char

/-- The character class matched by the JavaScript regular-expression class
`\s`: ASCII whitespace, NBSP, the Unicode space separators, line and
paragraph separators, and the BOM. -/
def isJsWs (c : Char) : Bool :=
  c.toNat = 9 || c.toNat = 10 || c.toNat = 11 || c.toNat = 12 ||
  c.toNat = 13 || c.toNat = 32 || c.toNat = 160 || c.toNat = 0x1680 ||
  (0x2000 ≤ c.toNat && c.toNat ≤ 0x200a) || c.toNat = 0x2028 ||
  c.toNat = 0x2029 || c.toNat = 0x202f || c.toNat = 0x205f ||
  c.toNat = 0x3000 || c.toNat = 0xfeff

/-- `String.prototype.toLowerCase`, per character, on the ASCII range
(the repository's catalog data is ASCII); non-ASCII characters are left
unchanged.  This is exactly Lean core's `Char.toLower`. -/
def jsLowerChar (c : Char) : Char := Char.toLower c

/-- `text.toLowerCase()` on the string model. -/
def jsToLowerCase (s : Str) : Str := s.map jsLowerChar

/-- `text.replace(/\s+/g, "")`: removing every whitespace character. -/
def stripWs (s : Str) : Str := s.filter (fun c => !isJsWs c)

/-- `String.prototype.trim()`: drop leading and trailing whitespace. -/
def jsTrim (s : Str) : Str :=
  ((s.dropWhile isJsWs).reverse.dropWhile isJsWs).reverse

/-- `hay.includes(needle)` for JavaScript strings. -/
def jsIncludes (hay needle : Str) : Bool := decide (needle <:+: hay)

/-- `normalizeForSearch` from the app script:
`text.toLowerCase().replace(/\s+/g, "")` (the falsy guard on `text`
returns `""` for `""`, which the general formula also does). -/
def normalizeForSearch (text : Str) : Str := stripWs (jsToLowerCase text)

/-- A song record: `{ number, title, artist }`, all strings. -/
structure Song where
  number : Str
  title : Str
  artist : Str
deriving DecidableEq

/-- The string constant `"all"` held by `currentFilter` in all-songs mode. -/
def strAll : Str := "all".toList

/-- The string constant `"title"` held by `currentSort` in title mode. -/
def strTitle : Str := "title".toList

/-- The search term computed in `renderSongs`:
`elements.searchInput.value.toLowerCase().trim()`. -/
def searchTermOf (inputValue : Str) : Str := jsTrim (jsToLowerCase inputValue)

/-- The filter predicate from `renderSongs`: the search match over
normalized title, normalized artist and whitespace-stripped number,
conjoined with the favorites filter (`currentFilter === "all" ||
favorites.has(song.number)`). -/
def songPasses (searchTerm currentFilter : Str) (favorites : List Str)
    (song : Song) : Bool :=
  let normalizedSearchTerm := normalizeForSearch searchTerm
  let normalizedTitle := normalizeForSearch song.title
  let normalizedArtist := normalizeForSearch song.artist
  let normalizedNumber := stripWs song.number
  let matchesSearch := normalizedSearchTerm.isEmpty ||
    jsIncludes normalizedTitle normalizedSearchTerm ||
    jsIncludes normalizedArtist normalizedSearchTerm ||
    jsIncludes normalizedNumber normalizedSearchTerm
  let matchesFavorites := currentFilter == strAll ||
    favorites.contains song.number
  matchesSearch && matchesFavorites

/-- The filtering step of `renderSongs`: `songs.filter(...)` applied with
the search term computed from the raw input value. -/
def filteredSongsOf (songs : List Song) (inputValue currentFilter : Str)
    (favorites : List Str) : List Song :=
  songs.filter (songPasses (searchTermOf inputValue) currentFilter favorites)

/-- The spec's description of the filter, stated from the claim's words:
the normalized search term is empty or an infix of the normalized title,
the normalized artist, or the whitespace-stripped number; and the filter
mode is All or the song's number is a favorite.  (Spec-side definition,
to be compared with `filteredSongsOf`.) -/
def claimIncludes (inputValue currentFilter : Str) (favorites : List Str)
    (s : Song) : Prop :=
  (normalizeForSearch inputValue = [] ∨
    normalizeForSearch inputValue <:+: normalizeForSearch s.title ∨
    normalizeForSearch inputValue <:+: normalizeForSearch s.artist ∨
    normalizeForSearch inputValue <:+: stripWs s.number)
  ∧ (currentFilter = strAll ∨ s.number ∈ favorites)

/-- `CONFIG.PERFORMANCE.ITEMS_PER_PAGE`. -/
def ITEMS_PER_PAGE : Nat := 50

/-- The rendered list and the button's `data-loaded` count right after
`renderSongs` completes: `renderSongsVirtual` materializes only the first
page when the filtered list is longer than a page, otherwise
`renderSongsImmediate` renders everything. -/
def initialRenderState (filteredSongs : List Song) : List Song × Nat :=
  if filteredSongs.length > ITEMS_PER_PAGE then
    (filteredSongs.take ITEMS_PER_PAGE, ITEMS_PER_PAGE)
  else (filteredSongs, filteredSongs.length)

/-- `loadMoreSongs`: a click appends `allSongs.slice(loaded, loaded + 50)`
after the already-rendered items and advances `loaded` by the batch
length.  The load-more button exists only while `loaded < total`
(`renderSongsVirtual` adds it only then, and `loadMoreSongs` removes it
once everything is shown), so a trigger with everything loaded is a
no-op. -/
def loadMoreSongs (allSongs : List Song) (st : List Song × Nat) :
    List Song × Nat :=
  if st.2 ≥ allSongs.length then st
  else
    let nextBatch := (allSongs.drop st.2).take ITEMS_PER_PAGE
    (st.1 ++ nextBatch, st.2 + nextBatch.length)

/-- The render state after `n` load-more triggers starting from a fresh
query result over the filtered/sorted list `allSongs`. -/
def renderedAfter (allSongs : List Song) : Nat → List Song × Nat
  | 0 => initialRenderState allSongs
  | n + 1 => loadMoreSongs allSongs (renderedAfter allSongs n)

/-- ASCII `[a-z0-9]`, the first class of the `addSpacesToText` pattern. -/
def isLowerOrDigit (c : Char) : Bool :=
  (97 ≤ c.toNat && c.toNat ≤ 122) || (48 ≤ c.toNat && c.toNat ≤ 57)

/-- ASCII `[A-Z]`, the second class of the `addSpacesToText` pattern. -/
def isUpperAZ (c : Char) : Bool := 65 ≤ c.toNat && c.toNat ≤ 90

/-- `addSpacesToText` from the app script:
`text.replace(/([a-z0-9])([A-Z])/g, "$1 $2")`, embedded as the global
regex replace operates: scan left to right; where the next two characters
match `[a-z0-9][A-Z]`, emit them with a space in between and resume after
the match; otherwise emit one character and advance one position.
(`if (!text) return text` only short-circuits the empty string, which the
scan also maps to itself.) -/
def addSpacesToText : Str → Str
  | [] => []
  | [c] => [c]
  | a :: b :: rest =>
    if isLowerOrDigit a && isUpperAZ b then
      a :: ' ' :: b :: addSpacesToText rest
    else a :: addSpacesToText (b :: rest)

/-- The spec's description of the display transform (spec-side
definition, to be compared with `addSpacesToText`): scan adjacent
character pairs and insert a single separator space at every transition
from lowercase-or-digit to uppercase, changing nothing else. -/
def addSpacingSpec : Str → Str
  | [] => []
  | [c] => [c]
  | a :: b :: rest =>
    if isLowerOrDigit a && isUpperAZ b then
      a :: ' ' :: addSpacingSpec (b :: rest)
    else a :: addSpacingSpec (b :: rest)

/-- A song used to instantiate witnesses at concrete inputs. -/
def demoSong : Song := ⟨"9".toList, "DemoTitle".toList, "DemoArtist".toList⟩

/-- The JavaScript `Set` holding the favorites, modelled as its
insertion-ordered element list without duplicates: `add` of a present
value keeps its position, `delete` removes it, and a later `add`
re-appends at the end.  This order is exactly the order the spread
`[...favorites]` produces for the persisted JSON array. -/
abbrev FavSet := List Str

/-- `favorites.has(x)`. -/
def favHas (favorites : FavSet) (x : Str) : Bool := favorites.contains x

/-- `favorites.add(x)`: appended at the end when absent, position kept
when already present. -/
def favAdd (favorites : FavSet) (x : Str) : FavSet :=
  if favorites.contains x then favorites else favorites ++ [x]

/-- `favorites.delete(x)`. -/
def favDelete (favorites : FavSet) (x : Str) : FavSet := favorites.erase x

/-- The membership flip at the top of `toggleFavorite`. -/
def toggleFav (favorites : FavSet) (songId : Str) : FavSet :=
  if favHas favorites songId then favDelete favorites songId
  else favAdd favorites songId

/-- The double-quote character, kept out of literals. -/
def quoteChar : Char := Char.ofNat 34

/-- The backslash character. -/
def backslashChar : Char := Char.ofNat 92

/-- `JSON.stringify` string escaping for the characters that occur in
this data model (quote and backslash; the catalog and favorites hold no
control characters). -/
def jsonEscapeChar (c : Char) : Str :=
  if c = quoteChar then [backslashChar, quoteChar]
  else if c = backslashChar then [backslashChar, backslashChar]
  else [c]

/-- A JSON string literal. -/
def jsonString (s : Str) : Str :=
  quoteChar :: (s.map jsonEscapeChar).flatten ++ [quoteChar]

/-- Comma-separated concatenation, as `JSON.stringify` renders arrays. -/
def jsonJoinComma : List Str → Str
  | [] => []
  | [s] => s
  | s :: rest => s ++ ',' :: jsonJoinComma rest

/-- `JSON.stringify([...favorites])`: the persisted favorites string. -/
def serializeFavorites (favorites : FavSet) : Str :=
  '[' :: jsonJoinComma (favorites.map jsonString) ++ [']']

/-- `JSON.stringify` of one song record. -/
def jsonSongObj (s : Song) : Str :=
  Char.ofNat 123 ::
    (jsonString ("number".toList) ++ ':' :: jsonString s.number ++
      ',' :: jsonString ("title".toList) ++ ':' :: jsonString s.title ++
      ',' :: jsonString ("artist".toList) ++ ':' :: jsonString s.artist) ++
    [Char.ofNat 125]

/-- `JSON.stringify(songs)`: the persisted catalog string. -/
def serializeSongs (songs : List Song) : Str :=
  '[' :: jsonJoinComma (songs.map jsonSongObj) ++ [']']

/-- The `localStorage` keys written by `saveToStorage`, plus the theme
key it does not touch. -/
structure StorageState where
  songsKey : Option Str
  favoritesKey : Option Str
  themeKey : Option Str
deriving DecidableEq

/-- `saveToStorage`: rewrites the songs key with the serialized catalog
and the favorites key with the serialized favorites spread; the theme
key is untouched. -/
def saveToStorage (songs : List Song) (favorites : FavSet)
    (st : StorageState) : StorageState :=
  { songsKey := some (serializeSongs songs)
    favoritesKey := some (serializeFavorites favorites)
    themeKey := st.themeKey }

/-- The app script's mutable module state that the claims mention. -/
structure AppState where
  songs : List Song
  favorites : FavSet
  searchInputValue : Str
  currentFilter : Str
  currentSort : Str
  currentPage : Nat
deriving DecidableEq

/-- The observable signals a handler emits, in order: a storage write, a
stats-counter refresh, a single favorite-button class toggle, or a full
`renderSongs` pipeline run. -/
inductive UiEffect where
  | storageWrite
  | statsUpdate
  | buttonToggle (songId : Str) (active : Bool)
  | fullRender
deriving DecidableEq

/-- `toggleFavorite(songId)`: flip membership, `saveToStorage()`,
`updateStats()`, then toggle the one button whose `data-song-id` is
`songId` to the new membership.  It never calls `renderSongs`. -/
def toggleFavorite (st : AppState) (storage : StorageState)
    (songId : Str) : AppState × StorageState × List UiEffect :=
  let favorites' := toggleFav st.favorites songId
  ({ st with favorites := favorites' },
    saveToStorage st.songs favorites' storage,
    [.storageWrite, .statsUpdate,
      .buttonToggle songId (favHas favorites' songId)])

/-- The confirmed branch of the clear-all handler: `songs = []`,
`favorites.clear()`, `saveToStorage()`, `renderSongs()`. -/
def clearAllConfirmed (st : AppState) (storage : StorageState) :
    AppState × StorageState × List UiEffect :=
  ({ st with songs := [], favorites := [] },
    saveToStorage [] [] storage,
    [.storageWrite, .fullRender])

/-- A concrete app state used to instantiate witnesses. -/
def demoAppState : AppState :=
  ⟨[demoSong], [ "7".toList ], [], strAll, strTitle, 0⟩

/-- A concrete storage state used to instantiate witnesses. -/
def demoStorage : StorageState := ⟨none, none, none⟩

/-- The key compared by the sort comparator in `renderSongs`: the title
when `currentSort === "title"`, otherwise the artist. -/
def sortKeyOf (currentSort : Str) (s : Song) : Str :=
  if currentSort == strTitle then s.title else s.artist

/-- The sorting step of `renderSongs`:
`filteredSongs.sort((a, b) => a.key.localeCompare(b.key))`.
`Array.prototype.sort` is stable (ECMA-262) and `localeCompare` is a
consistent comparator (ECMA-402), so the result is the unique stable
ascending reordering — here a stable merge sort over the locale
comparison `cmp`, with "a sorts no later than b" meaning
`cmp a b <= 0`. -/
def sortSongs (cmp : Str → Str → Int) (currentSort : Str)
    (l : List Song) : List Song :=
  l.mergeSort (fun a b =>
    decide (cmp (sortKeyOf currentSort a) (sortKeyOf currentSort b) ≤ 0))

/-- An HTTP response as the service worker observes it. -/
structure Response where
  status : Nat
  rtype : Str
  body : Str
  statusText : Str
  contentType : Str
deriving DecidableEq

/-- An intercepted request: its URL and method. -/
structure Request where
  url : Str
  method : Str
deriving DecidableEq

/-- The cache storage: buckets in creation order, each holding
(request URL, stored response) entries. -/
abbrev CacheStore := List (Str × List (Str × Response))

/-- `CACHE_NAME`, the current version tag. -/
def CACHE_NAME : Str := "songbook-v1.5".toList

/-- `caches.match(request)`: the first entry for the request's URL found
in any bucket. -/
def cachesMatch : CacheStore → Str → Option Response
  | [], _ => none
  | (_, entries) :: rest, url =>
    match List.lookup url entries with
    | some r => some r
    | none => cachesMatch rest url

/-- `caches.open(name)` followed by `cache.put(request, response)`: the
bucket is created when missing and the entry for the URL is replaced. -/
def cachePut : CacheStore → Str → Str → Response → CacheStore
  | [], name, url, r => [(name, [(url, r)])]
  | (bname, entries) :: rest, name, url, r =>
    if bname == name then
      (bname, (url, r) :: entries.filter (fun e => !(e.1 == url))) :: rest
    else (bname, entries) :: cachePut rest name url r

/-- The synthetic offline reply built in the fetch handler's catch. -/
def offlineResponse : Response :=
  { status := 503
    rtype := "default".toList
    body := "Offline - Content not available".toList
    statusText := "Service Unavailable".toList
    contentType := "text/plain".toList }

/-- `fetch(request)` as the handler observes it: resolves with a
response, or rejects (offline, DNS failure, ...). -/
inductive NetResult where
  | ok (r : Response)
  | failure
deriving DecidableEq

/-- What the fetch listener does with an event: let it pass through
natively, or respond with a response, leaving the caches in the given
state. -/
inductive FetchOutcome where
  | passThrough
  | respond (r : Response) (store : CacheStore)
deriving DecidableEq

/-- The string `"GET"`. -/
def strGET : Str := "GET".toList

/-- The fetch `type` value `"error"`. -/
def strError : Str := "error".toList

/-- The excluded pseudo-origin scheme of browser extensions. -/
def chromeExt : Str := "chrome-extension://".toList

/-- The fetch event listener: skip extension URLs and non-GET methods;
otherwise answer from any cache bucket if the request matches, else
fetch — caching a copy of a status-200, non-error-type response into the
current-version bucket before handing it back — and on rejection answer
with the synthetic 503.  (The listener's `!fetchResponse` guard is
unreachable: a resolved fetch always yields a response.) -/
def handleFetch (store : CacheStore) (req : Request) (net : NetResult) :
    FetchOutcome :=
  if chromeExt.isPrefixOf req.url then .passThrough
  else if !(req.method == strGET) then .passThrough
  else
    match cachesMatch store req.url with
    | some response => .respond response store
    | none =>
      match net with
      | .ok fetchResponse =>
        if fetchResponse.status != 200 || fetchResponse.rtype == strError
        then .respond fetchResponse store
        else .respond fetchResponse
          (cachePut store CACHE_NAME req.url fetchResponse)
      | .failure => .respond offlineResponse store

/-- The install step's `caches.open(CACHE_NAME)`: the current-version
bucket is created if absent.  (A later `addAll` failure is logged and
non-fatal and does not remove the bucket.) -/
def installCacheNames (names : List Str) : List Str :=
  if names.contains CACHE_NAME then names else names ++ [CACHE_NAME]

/-- The activate step: delete every cache whose name is not
`CACHE_NAME`. -/
def activateCacheNames (names : List Str) : List Str :=
  names.filter (fun c => c == CACHE_NAME)

/-- The shapes the parsed `songs.json` body can take, as consumed by
`data.songs || data || []`. -/
inductive FetchedJson where
  | withSongs (songs : List Song)
  | bareArray (songs : List Song)
  | nullData
deriving DecidableEq

/-- `data.songs || data || []`. -/
def songsOfJson : FetchedJson → List Song
  | .withSongs l => l
  | .bareArray l => l
  | .nullData => []

/-- The startup fetch as `loadFromStorage` observes it: rejected, or
resolved with an `ok` flag and a parsed body. -/
inductive CatalogFetch where
  | failure
  | resolved (ok : Bool) (data : FetchedJson)
deriving DecidableEq

/-- The catalog after `loadFromStorage`'s try/catch: on success with
`response.ok`, the parsed songs; on rejection, the persisted copy when
one exists, else the previous in-memory value (the initial `[]` at
startup).  A resolved non-ok response also keeps the previous value —
that path does not fall back to storage. -/
def loadCatalog (fetched : CatalogFetch) (storedSongs : Option (List Song))
    (prev : List Song) : List Song :=
  match fetched with
  | .resolved ok data => if ok then songsOfJson data else prev
  | .failure =>
    match storedSongs with
    | some s => s
    | none => prev

/-- The three outcomes `renderSongs` can put into the song-list element:
the no-songs-loaded empty state, the no-search-match empty state, or the
initially materialized page of songs. -/
inductive RenderOutcome where
  | noSongsLoaded
  | noMatch
  | shown (first : List Song)
deriving DecidableEq

/-- Which outcome `renderSongs` renders, given the catalog and the
filtered list. -/
def renderOutcome (songs filtered : List Song) : RenderOutcome :=
  if filtered.isEmpty then
    if songs.isEmpty then .noSongsLoaded else .noMatch
  else .shown (initialRenderState filtered).1

/-- A concrete request used to instantiate witnesses. -/
def demoRequest : Request := ⟨"app.js".toList, "GET".toList⟩

/-- A concrete consistent comparator (by length) used to instantiate the
sort witness. -/
def lengthCmp (a b : Str) : Int := (a.length : Int) - (b.length : Int)

theorem char_ofNat_toNat (n : Nat) (h : n < 55296) : (Char.ofNat n).toNat = n := by
  simp [Char.ofNat, Nat.isValidChar, h, Char.ofNatAux, Char.toNat, UInt32.toNat]

theorem isJsWs_false_of_alnum (c : Char) (h1 : 48 ≤ c.toNat) (h2 : c.toNat ≤ 122) :
    isJsWs c = false := by
  simp only [isJsWs, Bool.or_eq_false_iff, Bool.and_eq_false_iff,
    decide_eq_false_iff_not]
  omega

theorem jsLowerChar_idem (c : Char) : jsLowerChar (jsLowerChar c) = jsLowerChar c := by
  simp only [jsLowerChar, Char.toLower]
  by_cases h : c.toNat ≥ 65 ∧ c.toNat ≤ 90
  · rw [if_pos h]
    have ht : (Char.ofNat (c.toNat + 32)).toNat = c.toNat + 32 :=
      char_ofNat_toNat _ (by omega)
    rw [ht, if_neg (by omega)]
  · rw [if_neg h, if_neg h]

theorem isJsWs_jsLowerChar (c : Char) : isJsWs (jsLowerChar c) = isJsWs c := by
  simp only [jsLowerChar, Char.toLower]
  by_cases h : c.toNat ≥ 65 ∧ c.toNat ≤ 90
  · rw [if_pos h]
    have ht : (Char.ofNat (c.toNat + 32)).toNat = c.toNat + 32 :=
      char_ofNat_toNat _ (by omega)
    rw [isJsWs_false_of_alnum _ (by rw [ht]; omega) (by rw [ht]; omega),
      isJsWs_false_of_alnum _ (by omega) (by omega)]
  · rw [if_neg h]

theorem filter_notWs_dropWhile (l : Str) :
    (l.dropWhile isJsWs).filter (fun c => !isJsWs c) = l.filter (fun c => !isJsWs c) := by
  induction l with
  | nil => rfl
  | cons h t ih =>
    by_cases hw : isJsWs h
    · simp [List.dropWhile_cons, hw, ih, List.filter_cons]
    · simp [List.dropWhile_cons, hw]

theorem filter_notWs_jsTrim (l : Str) :
    (jsTrim l).filter (fun c => !isJsWs c) = l.filter (fun c => !isJsWs c) := by
  simp only [jsTrim]
  rw [List.filter_reverse, filter_notWs_dropWhile, List.filter_reverse,
    filter_notWs_dropWhile, List.reverse_reverse]

theorem stripWs_jsToLowerCase_jsTrim (u : Str) :
    stripWs (jsToLowerCase (jsTrim u)) = stripWs (jsToLowerCase u) := by
  have hp : (fun c => !isJsWs (jsLowerChar c)) = (fun c => !isJsWs c) := by
    funext c; rw [isJsWs_jsLowerChar]
  simp only [stripWs, jsToLowerCase]
  rw [List.filter_map, List.filter_map]
  simp only [Function.comp_def, hp]
  rw [filter_notWs_jsTrim]

/-- The normalization applied by `renderSongs` to the pre-lowered,
trimmed input equals the normalization of the raw input value. -/
theorem normalizeForSearch_searchTermOf (s : Str) :
    normalizeForSearch (searchTermOf s) = normalizeForSearch s := by
  simp only [searchTermOf, normalizeForSearch]
  rw [stripWs_jsToLowerCase_jsTrim]
  simp only [stripWs, jsToLowerCase, List.map_map]
  have : jsLowerChar ∘ jsLowerChar = jsLowerChar := by
    funext c; exact jsLowerChar_idem c
  rw [this]

/-- C1: a song of the catalog is included in the filtered result iff the
normalized search term is empty or an infix of its normalized title,
normalized artist, or whitespace-stripped number, and the filter mode is
All or its number is a favorite; and normalization identifies
"The Chainsmokers" with "TheChainsmokers". -/
theorem c1_filter_characterization
    (songs : List Song) (inputValue currentFilter : Str)
    (favorites : List Str) (s : Song) (hs : s ∈ songs) :
    (s ∈ filteredSongsOf songs inputValue currentFilter favorites ↔
      claimIncludes inputValue currentFilter favorites s)
    ∧ normalizeForSearch ("The Chainsmokers".toList) =
      normalizeForSearch ("TheChainsmokers".toList) := by
  constructor
  · simp only [filteredSongsOf, List.mem_filter, hs, true_and]
    simp only [songPasses, claimIncludes, jsIncludes,
      normalizeForSearch_searchTermOf, Bool.and_eq_true, Bool.or_eq_true,
      decide_eq_true_iff, List.isEmpty_iff, beq_iff_eq, List.elem_iff]
    tauto
  · decide

/-- Witness for C1 at a concrete catalog, query and favorites set. -/
theorem c1_filter_characterization_witness :
    (⟨"12".toList, "AmazingGrace".toList, "JohnNewton".toList⟩ : Song) ∈
      [(⟨"12".toList, "AmazingGrace".toList, "JohnNewton".toList⟩ : Song)]
    ∧ ((⟨"12".toList, "AmazingGrace".toList, "JohnNewton".toList⟩ : Song) ∈
        filteredSongsOf
          [(⟨"12".toList, "AmazingGrace".toList, "JohnNewton".toList⟩ : Song)]
          ("amazing grace".toList) strAll [] ↔
        claimIncludes ("amazing grace".toList) strAll []
          (⟨"12".toList, "AmazingGrace".toList, "JohnNewton".toList⟩ : Song))
    ∧ normalizeForSearch ("The Chainsmokers".toList) =
      normalizeForSearch ("TheChainsmokers".toList) := by
  refine ⟨by decide, ?_⟩
  exact c1_filter_characterization
    [(⟨"12".toList, "AmazingGrace".toList, "JohnNewton".toList⟩ : Song)]
    ("amazing grace".toList) strAll []
    (⟨"12".toList, "AmazingGrace".toList, "JohnNewton".toList⟩ : Song)
    (by decide)

theorem loadMoreSongs_take (l : List Song) (k : Nat) (hk : k ≤ l.length) :
    loadMoreSongs l (l.take k, k) =
      (l.take (min (k + ITEMS_PER_PAGE) l.length),
        min (k + ITEMS_PER_PAGE) l.length) := by
  unfold loadMoreSongs
  by_cases h : k ≥ l.length
  · rw [if_pos h]
    have hkl : k = l.length := le_antisymm hk h
    have hm : min (k + ITEMS_PER_PAGE) l.length = k := by omega
    rw [hm]
  · rw [if_neg h]
    have hlen : ((l.drop k).take ITEMS_PER_PAGE).length =
        min ITEMS_PER_PAGE (l.length - k) := by
      simp [List.length_take, List.length_drop]
    simp only [Prod.mk.injEq]
    constructor
    · rw [← List.take_add]
      by_cases hc : k + ITEMS_PER_PAGE ≤ l.length
      · have hm : min (k + ITEMS_PER_PAGE) l.length = k + ITEMS_PER_PAGE := by
          omega
        rw [hm]
      · have h1 : min (k + ITEMS_PER_PAGE) l.length = l.length := by omega
        rw [h1, List.take_of_length_le (by omega), List.take_length]
    · rw [hlen]; omega

theorem renderedAfter_eq (l : List Song) (n : Nat) :
    renderedAfter l n =
      (l.take (min (ITEMS_PER_PAGE * (n + 1)) l.length),
        min (ITEMS_PER_PAGE * (n + 1)) l.length) := by
  induction n with
  | zero =>
    simp only [renderedAfter, initialRenderState]
    by_cases h : l.length > ITEMS_PER_PAGE
    · rw [if_pos h]
      have hm : min (ITEMS_PER_PAGE * (0 + 1)) l.length = ITEMS_PER_PAGE := by
        simp only [ITEMS_PER_PAGE] at h ⊢; omega
      rw [hm]
    · rw [if_neg h]
      have hm : min (ITEMS_PER_PAGE * (0 + 1)) l.length = l.length := by
        simp only [ITEMS_PER_PAGE] at h ⊢; omega
      rw [hm, List.take_length]
  | succ n ih =>
    have hmin : min (ITEMS_PER_PAGE * (n + 1)) l.length ≤ l.length :=
      Nat.min_le_right _ _
    simp only [renderedAfter, ih]
    rw [loadMoreSongs_take l _ hmin]
    have hm : min (min (ITEMS_PER_PAGE * (n + 1)) l.length + ITEMS_PER_PAGE)
        l.length = min (ITEMS_PER_PAGE * (n + 1 + 1)) l.length := by
      simp only [ITEMS_PER_PAGE]; omega
    rw [hm]

/-- C2: after `n` load-more triggers on a fresh query result, the rendered
sequence is exactly the first `min(pageSize*(n+1), totalFiltered)` items of
the filtered/sorted list (so in sort order, no duplicates, no gaps), and
when the filtered count exceeds the page size only the first page is
materialized initially; later pages extend the same list without
re-sorting or re-filtering. -/
theorem c2_pagination (l : List Song) (n : Nat) :
    (renderedAfter l n).1 =
      l.take (min (ITEMS_PER_PAGE * (n + 1)) l.length)
    ∧ (renderedAfter l n).1.length = min (ITEMS_PER_PAGE * (n + 1)) l.length
    ∧ (l.length > ITEMS_PER_PAGE →
        (renderedAfter l 0).1 = l.take ITEMS_PER_PAGE)
    ∧ (renderedAfter l (n + 1)).1 =
        (renderedAfter l n).1 ++
          (l.drop (renderedAfter l n).2).take ITEMS_PER_PAGE := by
  have h := renderedAfter_eq l n
  have h' := renderedAfter_eq l (n + 1)
  refine ⟨by rw [h], ?_, ?_, ?_⟩
  · rw [h]
    simp [List.length_take]
  · intro hl
    rw [renderedAfter_eq l 0]
    have hm : min (ITEMS_PER_PAGE * (0 + 1)) l.length = ITEMS_PER_PAGE := by
      simp only [ITEMS_PER_PAGE] at hl ⊢; omega
    rw [hm]
  · rw [h, h']
    by_cases hc : ITEMS_PER_PAGE * (n + 1) + ITEMS_PER_PAGE ≤ l.length
    · have h1 : min (ITEMS_PER_PAGE * (n + 1)) l.length =
          ITEMS_PER_PAGE * (n + 1) := by
        simp only [ITEMS_PER_PAGE] at hc ⊢; omega
      have h2 : min (ITEMS_PER_PAGE * (n + 1 + 1)) l.length =
          ITEMS_PER_PAGE * (n + 1) + ITEMS_PER_PAGE := by
        simp only [ITEMS_PER_PAGE] at hc ⊢; omega
      rw [h1, h2, List.take_add]
    · have h2 : min (ITEMS_PER_PAGE * (n + 1 + 1)) l.length = l.length := by
        simp only [ITEMS_PER_PAGE] at hc ⊢; omega
      have h3 : min (ITEMS_PER_PAGE * (n + 1)) l.length ≤ l.length :=
        Nat.min_le_right _ _
      rw [h2, ← List.take_add, List.take_of_length_le (by omega),
        List.take_of_length_le (by omega)]

/-- Witness for C2 at a concrete 60-song filtered list and one trigger. -/
theorem c2_pagination_witness :
    ((renderedAfter (List.replicate 60 demoSong) 1).1 =
      (List.replicate 60 demoSong).take
        (min (ITEMS_PER_PAGE * (1 + 1)) (List.replicate 60 demoSong).length)
    ∧ (renderedAfter (List.replicate 60 demoSong) 1).1.length =
        min (ITEMS_PER_PAGE * (1 + 1)) (List.replicate 60 demoSong).length
    ∧ ((List.replicate 60 demoSong).length > ITEMS_PER_PAGE →
        (renderedAfter (List.replicate 60 demoSong) 0).1 =
          (List.replicate 60 demoSong).take ITEMS_PER_PAGE)
    ∧ (renderedAfter (List.replicate 60 demoSong) (1 + 1)).1 =
        (renderedAfter (List.replicate 60 demoSong) 1).1 ++
          ((List.replicate 60 demoSong).drop
            (renderedAfter (List.replicate 60 demoSong) 1).2).take
            ITEMS_PER_PAGE) :=
  c2_pagination (List.replicate 60 demoSong) 1

theorem isLowerOrDigit_false_of_upper (b : Char) (h : isUpperAZ b = true) :
    isLowerOrDigit b = false := by
  simp only [isUpperAZ, Bool.and_eq_true, decide_eq_true_iff] at h
  simp only [isLowerOrDigit, Bool.or_eq_false_iff, Bool.and_eq_false_iff,
    decide_eq_false_iff_not]
  omega

theorem addSpacingSpec_cons_of_not (b : Char) (rest : Str)
    (h : isLowerOrDigit b = false) :
    addSpacingSpec (b :: rest) = b :: addSpacingSpec rest := by
  cases rest with
  | nil => rfl
  | cons c r => simp [addSpacingSpec, h]

theorem addSpaces_eq_aux :
    ∀ n (l : Str), l.length ≤ n → addSpacesToText l = addSpacingSpec l := by
  intro n
  induction n with
  | zero =>
    intro l h
    have : l = [] := List.eq_nil_of_length_eq_zero (by omega)
    subst this; rfl
  | succ n ih =>
    intro l h
    match l with
    | [] => rfl
    | [c] => rfl
    | a :: b :: rest =>
      simp only [List.length_cons] at h
      by_cases hm : (isLowerOrDigit a && isUpperAZ b) = true
      · have hb : isUpperAZ b = true := (Bool.and_eq_true _ _ |>.mp hm).2
        simp only [addSpacesToText, addSpacingSpec, hm, if_true]
        rw [addSpacingSpec_cons_of_not b rest (isLowerOrDigit_false_of_upper b hb)]
        have := ih rest (by omega)
        rw [this]
      · have hm' : (isLowerOrDigit a && isUpperAZ b) = false := by
          revert hm; cases isLowerOrDigit a && isUpperAZ b <;> simp
        have e1 : addSpacesToText (a :: b :: rest) =
            a :: addSpacesToText (b :: rest) := by
          simp [addSpacesToText, hm']
        have e2 : addSpacingSpec (a :: b :: rest) =
            a :: addSpacingSpec (b :: rest) := by
          simp [addSpacingSpec, hm']
        rw [e1, e2, ih (b :: rest) (by simp only [List.length_cons]; omega)]

/-- C8: the display transform equals the spec's pairwise description —
one space inserted between every lowercase-or-digit character and an
immediately following uppercase character, nothing else changed — and
maps "1StepForward,3StepsBack" to "1 Step Forward,3 Steps Back". -/
theorem c8_addSpaces (s : Str) :
    addSpacesToText s = addSpacingSpec s
    ∧ addSpacesToText ("1StepForward,3StepsBack".toList) =
      ("1 Step Forward,3 Steps Back".toList) := by
  refine ⟨addSpaces_eq_aux s.length s le_rfl, by decide⟩

theorem toggleFav_of_mem (l : FavSet) (x : Str) (h : x ∈ l) :
    toggleFav l x = l.erase x := by
  simp [toggleFav, favHas, favDelete, List.elem_iff, h]

theorem toggleFav_of_not_mem (l : FavSet) (x : Str) (h : x ∉ l) :
    toggleFav l x = l ++ [x] := by
  simp [toggleFav, favHas, favAdd, List.elem_iff, h]

theorem toggleFav_toggleFav_of_not_mem (l : FavSet) (x : Str) (h : x ∉ l) :
    toggleFav (toggleFav l x) x = l := by
  rw [toggleFav_of_not_mem l x h]
  have hx : x ∈ l ++ [x] := by simp
  rw [toggleFav_of_mem _ x hx, List.erase_append_right _ h,
    List.erase_cons_head, List.append_nil]

theorem toggleFav_toggleFav_of_mem (l : FavSet) (x : Str)
    (hnd : l.Nodup) (h : x ∈ l) :
    toggleFav (toggleFav l x) x = l.erase x ++ [x] := by
  rw [toggleFav_of_mem l x h]
  have hx : x ∉ l.erase x := fun hc =>
    ((List.Nodup.mem_erase_iff hnd).mp hc).1 rfl
  rw [toggleFav_of_not_mem _ x hx]

/-- C5 counterexample: with favorites inserted in the order ["5","7"],
toggling "5" twice re-appends "5" at the end, so the persisted string
becomes the serialization of ["7","5"], not the original string. -/
theorem c5_counterexample :
    ¬ (serializeFavorites
        (toggleFav (toggleFav [ "5".toList, "7".toList ] ("5".toList))
          ("5".toList)) =
      serializeFavorites [ "5".toList, "7".toList ]) := by decide

/-- C5 (amended): toggling twice restores the membership of the favorites
set, and when the toggled number was absent it restores the list — hence
the persisted serialization — exactly; a single toggle removes a present
number and appends an absent one, and the toggle handler persists the new
set immediately.  When the number was present, re-adding appends it at
the end of the insertion order, so only set membership (not the exact
stored string) is restored in general. -/
theorem c5_toggle_twice (favorites : FavSet) (x : Str)
    (hnd : favorites.Nodup) :
    (∀ y, y ∈ toggleFav (toggleFav favorites x) x ↔ y ∈ favorites)
    ∧ (x ∉ favorites → toggleFav (toggleFav favorites x) x = favorites)
    ∧ (x ∉ favorites →
        serializeFavorites (toggleFav (toggleFav favorites x) x) =
          serializeFavorites favorites)
    ∧ (x ∈ favorites → toggleFav favorites x = favorites.erase x)
    ∧ (x ∉ favorites → toggleFav favorites x = favorites ++ [x])
    ∧ (∀ st storage, (toggleFavorite st storage x).2.1.favoritesKey =
        some (serializeFavorites (toggleFav st.favorites x))) := by
  refine ⟨?_, toggleFav_toggleFav_of_not_mem favorites x, ?_,
    toggleFav_of_mem favorites x, toggleFav_of_not_mem favorites x,
    fun st storage => rfl⟩
  · intro y
    by_cases hx : x ∈ favorites
    · rw [toggleFav_toggleFav_of_mem favorites x hnd hx]
      by_cases hyx : y = x
      · subst hyx; simp [hx]
      · simp [List.mem_append, List.mem_erase_of_ne hyx, hyx]
    · rw [toggleFav_toggleFav_of_not_mem favorites x hx]
  · intro h
    rw [toggleFav_toggleFav_of_not_mem favorites x h]

/-- Witness for C5 at favorites ["7"] and number "5". -/
theorem c5_toggle_twice_witness :
    (∀ y, y ∈ toggleFav (toggleFav [ "7".toList ] ("5".toList)) ("5".toList) ↔
        y ∈ [ "7".toList ])
    ∧ ("5".toList ∉ [ "7".toList ] →
        toggleFav (toggleFav [ "7".toList ] ("5".toList)) ("5".toList) =
          [ "7".toList ])
    ∧ ("5".toList ∉ [ "7".toList ] →
        serializeFavorites
            (toggleFav (toggleFav [ "7".toList ] ("5".toList)) ("5".toList)) =
          serializeFavorites [ "7".toList ])
    ∧ ("5".toList ∈ [ "7".toList ] →
        toggleFav [ "7".toList ] ("5".toList) = [ "7".toList ].erase ("5".toList))
    ∧ ("5".toList ∉ [ "7".toList ] →
        toggleFav [ "7".toList ] ("5".toList) = [ "7".toList ] ++ [ "5".toList ])
    ∧ (∀ st storage, (toggleFavorite st storage ("5".toList)).2.1.favoritesKey =
        some (serializeFavorites (toggleFav st.favorites ("5".toList)))) :=
  c5_toggle_twice [ "7".toList ] ("5".toList) (by decide)

/-- C9: a favorite toggle changes only the toggled number's membership,
persists the full set immediately, emits exactly the storage write, the
stats refresh and the one button toggle — never a full pipeline render —
and leaves the catalog and query state untouched. -/
theorem c9_toggle_frame (st : AppState) (storage : StorageState) (x : Str)
    (hnd : st.favorites.Nodup) :
    ((toggleFavorite st storage x).1.songs = st.songs)
    ∧ ((toggleFavorite st storage x).1.searchInputValue = st.searchInputValue)
    ∧ ((toggleFavorite st storage x).1.currentFilter = st.currentFilter)
    ∧ ((toggleFavorite st storage x).1.currentSort = st.currentSort)
    ∧ (∀ y, y ≠ x →
        (y ∈ (toggleFavorite st storage x).1.favorites ↔ y ∈ st.favorites))
    ∧ (favHas (toggleFavorite st storage x).1.favorites x =
        !favHas st.favorites x)
    ∧ ((toggleFavorite st storage x).2.1.favoritesKey =
        some (serializeFavorites (toggleFav st.favorites x)))
    ∧ ((toggleFavorite st storage x).2.2 =
        [.storageWrite, .statsUpdate,
          .buttonToggle x (favHas (toggleFav st.favorites x) x)])
    ∧ (UiEffect.fullRender ∉ (toggleFavorite st storage x).2.2) := by
  refine ⟨rfl, rfl, rfl, rfl, ?_, ?_, rfl, rfl, ?_⟩
  · intro y hyx
    show y ∈ toggleFav st.favorites x ↔ y ∈ st.favorites
    by_cases hx : x ∈ st.favorites
    · rw [toggleFav_of_mem _ _ hx, List.mem_erase_of_ne hyx]
    · rw [toggleFav_of_not_mem _ _ hx]
      simp [List.mem_append, hyx]
  · show favHas (toggleFav st.favorites x) x = !favHas st.favorites x
    by_cases hx : x ∈ st.favorites
    · rw [toggleFav_of_mem _ _ hx]
      have hxe : x ∉ st.favorites.erase x := fun hc =>
        ((List.Nodup.mem_erase_iff hnd).mp hc).1 rfl
      simp [favHas, List.elem_iff, hx, hxe]
    · rw [toggleFav_of_not_mem _ _ hx]
      simp [favHas, List.elem_iff, hx]
  · intro hmem
    simp only [toggleFavorite, List.mem_cons, List.not_mem_nil] at hmem
    rcases hmem with h | h | h | h <;> exact absurd h (by simp)

/-- Witness for C9 at a concrete state and number "5". -/
theorem c9_toggle_frame_witness :
    ((toggleFavorite demoAppState demoStorage ("5".toList)).1.songs =
      demoAppState.songs)
    ∧ ((toggleFavorite demoAppState demoStorage ("5".toList)).1.searchInputValue =
        demoAppState.searchInputValue)
    ∧ ((toggleFavorite demoAppState demoStorage ("5".toList)).1.currentFilter =
        demoAppState.currentFilter)
    ∧ ((toggleFavorite demoAppState demoStorage ("5".toList)).1.currentSort =
        demoAppState.currentSort)
    ∧ (∀ y, y ≠ "5".toList →
        (y ∈ (toggleFavorite demoAppState demoStorage ("5".toList)).1.favorites ↔
          y ∈ demoAppState.favorites))
    ∧ (favHas (toggleFavorite demoAppState demoStorage ("5".toList)).1.favorites
          ("5".toList) =
        !favHas demoAppState.favorites ("5".toList))
    ∧ ((toggleFavorite demoAppState demoStorage ("5".toList)).2.1.favoritesKey =
        some (serializeFavorites (toggleFav demoAppState.favorites ("5".toList))))
    ∧ ((toggleFavorite demoAppState demoStorage ("5".toList)).2.2 =
        [.storageWrite, .statsUpdate,
          .buttonToggle ("5".toList)
            (favHas (toggleFav demoAppState.favorites ("5".toList)) ("5".toList))])
    ∧ (UiEffect.fullRender ∉
        (toggleFavorite demoAppState demoStorage ("5".toList)).2.2) :=
  c9_toggle_frame demoAppState demoStorage ("5".toList) (by decide)

/-- C10: both favorites mutations persist through `saveToStorage`, which
rewrites both persisted keys — the serialized catalog alongside the
serialized favorites — although a toggle leaves the catalog unchanged; so
after any toggle the persisted song list is the serialization of the
current in-memory catalog. -/
theorem c10_save_rewrites_both (st : AppState) (storage : StorageState)
    (x : Str) :
    ((toggleFavorite st storage x).2.1.songsKey =
      some (serializeSongs st.songs))
    ∧ ((toggleFavorite st storage x).2.1.favoritesKey =
        some (serializeFavorites (toggleFav st.favorites x)))
    ∧ ((toggleFavorite st storage x).1.songs = st.songs)
    ∧ ((toggleFavorite st storage x).2.1.songsKey =
        some (serializeSongs (toggleFavorite st storage x).1.songs))
    ∧ ((clearAllConfirmed st storage).2.1.songsKey =
        some (serializeSongs []))
    ∧ ((clearAllConfirmed st storage).2.1.favoritesKey =
        some (serializeFavorites [])) :=
  ⟨rfl, rfl, rfl, rfl, rfl, rfl⟩

theorem cachesMatch_cachePut_self (store : CacheStore) (name url : Str)
    (r : Response) (h : cachesMatch store url = none) :
    cachesMatch (cachePut store name url r) url = some r := by
  induction store with
  | nil => simp [cachePut, cachesMatch, List.lookup]
  | cons hd rest ih =>
    obtain ⟨bname, entries⟩ := hd
    simp only [cachesMatch] at h
    cases hl : List.lookup url entries with
    | some v => rw [hl] at h; exact absurd h (by simp)
    | none =>
      rw [hl] at h
      simp only [cachePut]
      by_cases hb : bname == name
      · rw [if_pos hb]
        simp [cachesMatch, List.lookup]
      · rw [if_neg hb]
        simp only [cachesMatch, hl]
        exact ih h

/-- C3: for an intercepted same-origin GET, a cache hit from any bucket
is returned verbatim with no revalidation and no cache change; on a miss
the network is fetched, and a status-200 non-error response is stored
into the current-version bucket (where the lookup then finds it) and
returned; on network failure with no hit, the handler answers with the
synthetic 503 plain-text "Offline - Content not available" response
instead of failing. -/
theorem c3_fetch_policy (store : CacheStore) (req : Request)
    (net : NetResult) (hext : chromeExt.isPrefixOf req.url = false)
    (hget : req.method = strGET) :
    (∀ r, cachesMatch store req.url = some r →
      handleFetch store req net = .respond r store)
    ∧ (∀ fr, cachesMatch store req.url = none → net = .ok fr →
        fr.status = 200 → fr.rtype ≠ strError →
        handleFetch store req net =
          .respond fr (cachePut store CACHE_NAME req.url fr)
        ∧ cachesMatch (cachePut store CACHE_NAME req.url fr) req.url =
            some fr)
    ∧ (cachesMatch store req.url = none → net = .failure →
        handleFetch store req net = .respond offlineResponse store)
    ∧ offlineResponse.status = 503
    ∧ offlineResponse.contentType = ("text/plain".toList)
    ∧ offlineResponse.body = ("Offline - Content not available".toList) := by
  refine ⟨?_, ?_, ?_, rfl, rfl, rfl⟩
  · intro r hr
    simp [handleFetch, hext, hget, hr]
  · intro fr hnone hnet h200 herr
    subst hnet
    have hcond : (fr.status != 200 || fr.rtype == strError) = false := by
      have h1 : (fr.status != 200) = false := by simp [bne, h200]
      have h2 : (fr.rtype == strError) = false := beq_eq_false_iff_ne.mpr herr
      rw [h1, h2, Bool.or_self]
    exact ⟨by simp [handleFetch, hext, hget, hnone, hcond],
      cachesMatch_cachePut_self store CACHE_NAME req.url fr hnone⟩
  · intro hnone hnet
    subst hnet
    simp [handleFetch, hext, hget, hnone]

/-- Witness for C3 at an empty cache store, a GET request and a failed
network fetch. -/
theorem c3_fetch_policy_witness :
    (chromeExt.isPrefixOf demoRequest.url = false)
    ∧ (demoRequest.method = strGET)
    ∧ ((∀ r, cachesMatch [] demoRequest.url = some r →
        handleFetch [] demoRequest .failure = .respond r [])
      ∧ (∀ fr, cachesMatch [] demoRequest.url = none → NetResult.failure = .ok fr →
          fr.status = 200 → fr.rtype ≠ strError →
          handleFetch [] demoRequest .failure =
            .respond fr (cachePut [] CACHE_NAME demoRequest.url fr)
          ∧ cachesMatch (cachePut [] CACHE_NAME demoRequest.url fr)
              demoRequest.url = some fr)
      ∧ (cachesMatch [] demoRequest.url = none →
          NetResult.failure = NetResult.failure →
          handleFetch [] demoRequest .failure = .respond offlineResponse [])
      ∧ offlineResponse.status = 503
      ∧ offlineResponse.contentType = ("text/plain".toList)
      ∧ offlineResponse.body = ("Offline - Content not available".toList)) :=
  ⟨by decide, by decide,
    c3_fetch_policy [] demoRequest .failure (by decide) (by decide)⟩

/-- C4: installing creates the current-version bucket and activation
deletes every bucket whose name is not the current version tag, so after
install-then-activate the set of bucket names is exactly the singleton
containing the tag, whatever buckets pre-existed; and activation alone
never keeps a stale name. -/
theorem c4_activation (names : List Str) :
    (∀ n, n ∈ activateCacheNames (installCacheNames names) ↔ n = CACHE_NAME)
    ∧ (∀ n, n ∈ activateCacheNames names → n = CACHE_NAME) := by
  constructor
  · intro n
    simp only [activateCacheNames, List.mem_filter, beq_iff_eq]
    constructor
    · rintro ⟨_, h⟩; exact h
    · rintro rfl
      refine ⟨?_, rfl⟩
      simp only [installCacheNames]
      by_cases h : names.contains CACHE_NAME = true
      · rw [if_pos h]
        exact List.elem_iff.mp h
      · rw [if_neg h]
        simp
  · intro n h
    simp only [activateCacheNames, List.mem_filter, beq_iff_eq] at h
    exact h.2

/-- Witness for C4 at a concrete pre-existing bucket list. -/
theorem c4_activation_witness :
    (∀ n, n ∈ activateCacheNames (installCacheNames [ "songbook-v1.4".toList ]) ↔
      n = CACHE_NAME)
    ∧ (∀ n, n ∈ activateCacheNames [ "songbook-v1.4".toList ] → n = CACHE_NAME) :=
  c4_activation [ "songbook-v1.4".toList ]

/-- C6: for every catalog and sort key, the sort step orders the songs
ascending under the locale comparison of the selected key (for any
consistent locale comparator), permutes the input, is stable — a pair in
catalog order whose keys compare no-later stays in that order — and is
idempotent. -/
theorem c6_sort (cmp : Str → Str → Int) (currentSort : Str) (l : List Song)
    (htrans : ∀ a b c : Str, cmp a b ≤ 0 → cmp b c ≤ 0 → cmp a c ≤ 0)
    (htotal : ∀ a b : Str, cmp a b ≤ 0 ∨ cmp b a ≤ 0) :
    (sortSongs cmp currentSort l).Pairwise
      (fun a b => cmp (sortKeyOf currentSort a) (sortKeyOf currentSort b) ≤ 0)
    ∧ (sortSongs cmp currentSort l).Perm l
    ∧ (∀ a b : Song, List.Sublist [a, b] l →
        cmp (sortKeyOf currentSort a) (sortKeyOf currentSort b) ≤ 0 →
        List.Sublist [a, b] (sortSongs cmp currentSort l))
    ∧ sortSongs cmp currentSort (sortSongs cmp currentSort l) =
        sortSongs cmp currentSort l := by
  have htrans' : ∀ a b c : Song,
      decide (cmp (sortKeyOf currentSort a) (sortKeyOf currentSort b) ≤ 0) = true →
      decide (cmp (sortKeyOf currentSort b) (sortKeyOf currentSort c) ≤ 0) = true →
      decide (cmp (sortKeyOf currentSort a) (sortKeyOf currentSort c) ≤ 0) = true := by
    intro a b c h1 h2
    simp only [decide_eq_true_iff] at h1 h2 ⊢
    exact htrans _ _ _ h1 h2
  have htot' : ∀ a b : Song,
      (decide (cmp (sortKeyOf currentSort a) (sortKeyOf currentSort b) ≤ 0) ||
        decide (cmp (sortKeyOf currentSort b) (sortKeyOf currentSort a) ≤ 0)) = true := by
    intro a b
    rcases htotal (sortKeyOf currentSort a) (sortKeyOf currentSort b) with h | h <;>
      simp [h]
  unfold sortSongs
  refine ⟨?_, List.mergeSort_perm l _, ?_, ?_⟩
  · exact (List.sorted_mergeSort htrans' htot' l).imp
      (fun h => decide_eq_true_iff.mp h)
  · intro a b hsub hle
    exact List.pair_sublist_mergeSort htrans' htot'
      (decide_eq_true_iff.mpr hle) hsub
  · exact List.mergeSort_of_sorted (List.sorted_mergeSort htrans' htot' l)

/-- Witness for C6 with the length comparator and a one-song catalog. -/
theorem c6_sort_witness :
    (∀ a b c : Str, lengthCmp a b ≤ 0 → lengthCmp b c ≤ 0 → lengthCmp a c ≤ 0)
    ∧ (∀ a b : Str, lengthCmp a b ≤ 0 ∨ lengthCmp b a ≤ 0)
    ∧ ((sortSongs lengthCmp strTitle [demoSong]).Pairwise
        (fun a b => lengthCmp (sortKeyOf strTitle a) (sortKeyOf strTitle b) ≤ 0)
      ∧ (sortSongs lengthCmp strTitle [demoSong]).Perm [demoSong]
      ∧ (∀ a b : Song, List.Sublist [a, b] [demoSong] →
          lengthCmp (sortKeyOf strTitle a) (sortKeyOf strTitle b) ≤ 0 →
          List.Sublist [a, b] (sortSongs lengthCmp strTitle [demoSong]))
      ∧ sortSongs lengthCmp strTitle (sortSongs lengthCmp strTitle [demoSong]) =
          sortSongs lengthCmp strTitle [demoSong]) :=
  ⟨fun a b c h1 h2 => by simp only [lengthCmp] at h1 h2 ⊢; omega,
    fun a b => by simp only [lengthCmp]; omega,
    c6_sort lengthCmp strTitle [demoSong]
      (fun a b c h1 h2 => by simp only [lengthCmp] at h1 h2 ⊢; omega)
      (fun a b => by simp only [lengthCmp]; omega)⟩

/-- C7: when the startup fetch rejects, the catalog comes from the
persisted copy when one exists and is empty otherwise; an empty catalog
renders the no-songs-loaded state for every query, while a non-empty
catalog whose filtered result is empty renders the distinct
no-songs-match state. -/
theorem c7_fetch_failure (s songs : List Song)
    (inputValue currentFilter : Str) (favorites : List Str)
    (hne : songs ≠ [])
    (hempty : filteredSongsOf songs inputValue currentFilter favorites = []) :
    (loadCatalog .failure (some s) [] = s)
    ∧ (loadCatalog .failure none [] = [])
    ∧ (∀ q f fa, renderOutcome (loadCatalog .failure none [])
        (filteredSongsOf (loadCatalog .failure none []) q f fa) =
          .noSongsLoaded)
    ∧ (renderOutcome songs
        (filteredSongsOf songs inputValue currentFilter favorites) = .noMatch)
    ∧ (RenderOutcome.noSongsLoaded ≠ RenderOutcome.noMatch) := by
  refine ⟨rfl, rfl, fun q f fa => rfl, ?_, by simp⟩
  rw [hempty]
  simp [renderOutcome, List.isEmpty_iff, hne]

/-- Witness for C7 at a one-song catalog and a non-matching search. -/
theorem c7_fetch_failure_witness :
    ([demoSong] ≠ ([] : List Song))
    ∧ (filteredSongsOf [demoSong] ("zzz".toList) strAll [] = [])
    ∧ ((loadCatalog .failure (some [demoSong]) [] = [demoSong])
      ∧ (loadCatalog .failure none [] = [])
      ∧ (∀ q f fa, renderOutcome (loadCatalog .failure none [])
          (filteredSongsOf (loadCatalog .failure none []) q f fa) =
            .noSongsLoaded)
      ∧ (renderOutcome [demoSong]
          (filteredSongsOf [demoSong] ("zzz".toList) strAll []) = .noMatch)
      ∧ (RenderOutcome.noSongsLoaded ≠ RenderOutcome.noMatch)) :=
  ⟨by decide, by decide,
    c7_fetch_failure [demoSong] [demoSong] ("zzz".toList) strAll []
      (by decide) (by decide)⟩

end SongBook
